import Mathlib

/-!
Shallow embedding of the AETHER conversation-orchestration engine
(`src/core/aether_engine.py` and `src/api/main.py`) and proofs of the
specification claims about it.

Conventions of the embedding:
* Python strings are Lean `String`s; substring tests (`pat in s`) become
  list-of-character infix tests; `.lower()` maps `Char.toLower` over the
  characters (the repository only ever compares ASCII text).
* Python `dict`s (insertion-ordered, unique keys) are association lists;
  assignment replaces in place or appends at the end.
* Timestamps (`datetime.now()`) are abstracted to a `Nat` passed
  explicitly into every operation that reads the clock.
* Dynamically-typed values that can be stored in a `UserProfile` field by
  `setattr` are the inductive `PValue`; operations that would raise a
  Python `TypeError` on a value of the wrong shape return `Option`/flagged
  results instead of propagating.
* The external generation backend (tokenizer + model + decode, whose
  internals are out of scope per the spec) is an abstract
  `Option (String → Option String)`: `none` when the model or tokenizer
  failed to load, `some g` when both are present, where `g prompt = none`
  models an exception raised during the generation call.
-/

namespace Aether

/-- Python whitespace, as used by `str.split()` / `str.strip()`
(space, tab, newline, carriage return, vertical tab, form feed). -/
def pyIsSpace (c : Char) : Bool :=
  c = ' ' || c = '\t' || c = '\n' || c = '\r' || c = '\x0b' || c = '\x0c'

/-- Accumulator loop for `pySplitWs`: `acc` holds the characters of the
current word, reversed. -/
def splitWsAux : List Char → List Char → List String
  | [], acc => if acc.isEmpty then [] else [String.mk acc.reverse]
  | c :: rest, acc =>
    if pyIsSpace c then
      if acc.isEmpty then splitWsAux rest []
      else String.mk acc.reverse :: splitWsAux rest []
    else splitWsAux rest (c :: acc)

/-- Python `str.split()` with no arguments: split on runs of whitespace,
discarding empty pieces. -/
def pySplitWs (s : String) : List String :=
  splitWsAux s.toList []

/-- Python `str.lower()`, viewed as the character list of the result. -/
def pyLower (s : String) : List Char :=
  s.toList.map Char.toLower

/-- Python `pat in s` substring test, on the character list of `s`. -/
def pyIn (pat : String) (chars : List Char) : Bool :=
  decide (pat.toList <:+: chars)

/-- Python `str.strip()`: drop whitespace from both ends. -/
def pyStrip (s : String) : String :=
  String.mk (((s.toList.dropWhile pyIsSpace).reverse.dropWhile pyIsSpace).reverse)

/-- Python slice `l[-n:]`: the last `n` elements (all of them when
`l` is shorter than `n`). -/
def pyLastN {α : Type} (n : Nat) (l : List α) : List α :=
  l.drop (l.length - n)

/-- Python dict assignment `d[k] = v` on an association list: replace the
binding in place if the key is present, otherwise append it. -/
def alSet {β : Type} (k : String) (v : β) : List (String × β) → List (String × β)
  | [] => [(k, v)]
  | (k2, v2) :: rest => if k2 = k then (k, v) :: rest else (k2, v2) :: alSet k v rest

/-- Python `del d[k]` on an association list: drop the binding. -/
def alErase {β : Type} (k : String) : List (String × β) → List (String × β)
  | [] => []
  | (k2, v2) :: rest => if k2 = k then rest else (k2, v2) :: alErase k rest

/-! ## ThoughtProcessor (`src/core/aether_engine.py`, lines 93–240)

The original dispatches the five layers through a name→function mapping
built in `__init__`; the layer functions themselves are pure, so the
embedding calls them in the same fixed order. -/

/-- Output of `ThoughtProcessor._perception_layer`. -/
structure Perception where
  raw_input : String
  intent : String
  entities : List String
  sentiment : String
deriving DecidableEq

/-- Output of `ThoughtProcessor._analysis_layer`. -/
structure Analysis where
  complexity : String
  required_knowledge : List String
  reasoning_type : String
deriving DecidableEq

/-- Output of `ThoughtProcessor._synthesis_layer`. -/
structure Synthesis where
  key_points : List String
  connections : List String
  implications : List String
deriving DecidableEq

/-- Output of `ThoughtProcessor._emotion_layer`. -/
structure Emotion where
  user_emotion : String
  appropriate_tone : String
  empathy_level : ℚ
deriving DecidableEq

/-- The dict passed to `ThoughtProcessor._response_layer`:
all four earlier layer outputs. -/
structure ProcessedThought where
  perception : Perception
  analysis : Analysis
  synthesis : Synthesis
  emotion : Emotion
deriving DecidableEq

/-- Output of `ThoughtProcessor._response_layer`, i.e. of
`ThoughtProcessor.process`. -/
structure ThoughtRecord where
  main_response : ProcessedThought
  follow_up_suggestions : List String
  confidence : ℚ
deriving DecidableEq

/-- `ThoughtProcessor._detect_intent`: question mark, then creation verbs,
then explanatory verbs, else conversation. -/
def detect_intent (text : String) : String :=
  if pyIn "?" text.toList then "question"
  else if ["create", "write", "generate"].any (fun word => pyIn word (pyLower text)) then
    "creative"
  else if ["analyze", "explain", "why"].any (fun word => pyIn word (pyLower text)) then
    "analysis"
  else "conversation"

/-- First character uppercase, as in `w[0].isupper()`.  `split()` never
yields an empty word, so the `[]` branch is unreachable (Python would
raise `IndexError` there). -/
def firstCharUpper (w : String) : Bool :=
  match w.toList with
  | [] => false
  | c :: _ => c.isUpper

/-- `ThoughtProcessor._extract_entities`: capitalized words longer than
two characters. -/
def extract_entities (text : String) : List String :=
  (pySplitWs text).filter (fun w => firstCharUpper w && decide (2 < w.length))

/-- The positive lexicon of `ThoughtProcessor._analyze_sentiment`. -/
def positive_words : List String :=
  ["good", "great", "excellent", "happy", "love", "amazing"]

/-- The negative lexicon of `ThoughtProcessor._analyze_sentiment`. -/
def negative_words : List String :=
  ["bad", "terrible", "hate", "angry", "sad", "frustrated"]

/-- `ThoughtProcessor._analyze_sentiment`: count lexicon words occurring
in the lowercased text; ties give neutral. -/
def analyze_sentiment (text : String) : String :=
  let text_lower := pyLower text
  let pos_count := positive_words.countP (fun word => pyIn word text_lower)
  let neg_count := negative_words.countP (fun word => pyIn word text_lower)
  if neg_count < pos_count then "positive"
  else if pos_count < neg_count then "negative"
  else "neutral"

/-- `ThoughtProcessor._perception_layer`. -/
def perception_layer (input_text : String) : Perception :=
  { raw_input := input_text
  , intent := detect_intent input_text
  , entities := extract_entities input_text
  , sentiment := analyze_sentiment input_text }

/-- `ThoughtProcessor._assess_complexity` (constant stub in the source). -/
def assess_complexity (_perception : Perception) : String := "moderate"

/-- `ThoughtProcessor._identify_knowledge_domains` (constant stub). -/
def identify_knowledge_domains (_perception : Perception) : List String := ["general"]

/-- `ThoughtProcessor._determine_reasoning_type` (constant stub). -/
def determine_reasoning_type (_perception : Perception) : String := "deductive"

/-- `ThoughtProcessor._analysis_layer`. -/
def analysis_layer (perception : Perception) : Analysis :=
  { complexity := assess_complexity perception
  , required_knowledge := identify_knowledge_domains perception
  , reasoning_type := determine_reasoning_type perception }

/-- `ThoughtProcessor._synthesis_layer` (all three sub-stubs return `[]`). -/
def synthesis_layer (_analysis : Analysis) : Synthesis :=
  { key_points := [], connections := [], implications := [] }

/-- `ThoughtProcessor._emotion_layer` (all three sub-stubs constant). -/
def emotion_layer (_perception : Perception) (_analysis : Analysis) : Emotion :=
  { user_emotion := "neutral"
  , appropriate_tone := "professional"
  , empathy_level := (0.5 : ℚ) }

/-- `ThoughtProcessor._calculate_confidence` (constant stub). -/
def calculate_confidence (_thought : ProcessedThought) : ℚ := (0.85 : ℚ)

/-- `ThoughtProcessor._generate_follow_ups` (constant stub). -/
def generate_follow_ups (_thought : ProcessedThought) : List String := []

/-- `ThoughtProcessor._response_layer`. -/
def response_layer (processed_thought : ProcessedThought) : ThoughtRecord :=
  { main_response := processed_thought
  , follow_up_suggestions := generate_follow_ups processed_thought
  , confidence := calculate_confidence processed_thought }

/-! ## Dynamic profile values

`UserProfile` is a Python dataclass whose fields `customize` can overwrite
through `setattr` with a value of any runtime type, so the embedded profile
stores fields of the dynamic type `PValue` (one constructor per value shape
the repository can actually put there). -/

/-- A dynamically-typed Python value storable in a `UserProfile` field. -/
inductive PValue where
  /-- a `str` -/
  | pstr (s : String)
  /-- a `list` of `str` -/
  | plistStr (l : List String)
  /-- an enum member (`ThoughtMode.…` / `EmotionalState.…`), by its repr -/
  | penum (s : String)
  /-- a `datetime`, abstracted to a `Nat` tick -/
  | ptime (t : Nat)
  /-- a `list` of `dict[str, str]` (interaction-history entries) -/
  | pdicts (d : List (List (String × String)))
  /-- `None` -/
  | pnone
deriving DecidableEq

/-- Python `str(d)` of a `dict[str, str]`. -/
def pyDictStr (d : List (String × String)) : String :=
  "\x7b" ++ String.intercalate ", "
    (d.map (fun kv => "\x27" ++ kv.1 ++ "\x27: \x27" ++ kv.2 ++ "\x27")) ++ "\x7d"

/-- Python `str(v)` as used by the f-strings in `_build_prompt`. -/
def pyToStr : PValue → String
  | .pstr s => s
  | .plistStr l =>
      "[" ++ String.intercalate ", " (l.map (fun x => "\x27" ++ x ++ "\x27")) ++ "]"
  | .penum s => s
  | .ptime t => toString t
  | .pdicts ds => "[" ++ String.intercalate ", " (ds.map pyDictStr) ++ "]"
  | .pnone => "None"

/-- Python truthiness of a `PValue` (`if user_profile.custom_instructions:`). -/
def pyTruthy : PValue → Bool
  | .pstr s => s != ""
  | .plistStr l => !l.isEmpty
  | .penum _ => true
  | .ptime _ => true
  | .pdicts ds => !ds.isEmpty
  | .pnone => false

/-- Python `", ".join(v)`.  Joining a list of `str` concatenates its
elements; joining a `str` iterates over its one-character substrings;
any other value raises `TypeError`, modelled as `none`. -/
def pyJoinComma : PValue → Option String
  | .plistStr l => some (String.intercalate ", " l)
  | .pstr s => some (String.intercalate ", " (s.toList.map (fun c => String.mk [c])))
  | _ => none

/-! ## UserProfile (`src/core/aether_engine.py`, lines 77–90) -/

/-- The `UserProfile` dataclass.  Every field `setattr` can reach is a
`PValue` (see above); field order matches the dataclass. -/
structure UserProfile where
  user_id : PValue
  personality_preference : PValue
  response_style : PValue
  expertise_areas : PValue
  language_preference : PValue
  thought_mode : PValue
  emotional_tone : PValue
  custom_instructions : PValue
  interaction_history : PValue
  created_at : PValue
  last_updated : PValue
deriving DecidableEq

/-- The attribute names of a `UserProfile` instance, in dataclass order,
as tested by `hasattr(profile, key)`. -/
def profileAttrs : List String :=
  ["user_id", "personality_preference", "response_style", "expertise_areas",
   "language_preference", "thought_mode", "emotional_tone", "custom_instructions",
   "interaction_history", "created_at", "last_updated"]

/-- `hasattr(profile, key)` for a `UserProfile`. -/
def profileHasattr (key : String) : Bool :=
  profileAttrs.contains key

/-- `setattr(profile, key, value)` for a `UserProfile`; only reached under
a `hasattr` guard in the source, so unknown keys fall through unchanged. -/
def profileSetattr (p : UserProfile) (key : String) (v : PValue) : UserProfile :=
  if key = "user_id" then { p with user_id := v }
  else if key = "personality_preference" then { p with personality_preference := v }
  else if key = "response_style" then { p with response_style := v }
  else if key = "expertise_areas" then { p with expertise_areas := v }
  else if key = "language_preference" then { p with language_preference := v }
  else if key = "thought_mode" then { p with thought_mode := v }
  else if key = "emotional_tone" then { p with emotional_tone := v }
  else if key = "custom_instructions" then { p with custom_instructions := v }
  else if key = "interaction_history" then { p with interaction_history := v }
  else if key = "created_at" then { p with created_at := v }
  else if key = "last_updated" then { p with last_updated := v }
  else p

/-! ## Engine state (`src/core/aether_engine.py`, lines 243–263) -/

/-- The configuration fields of `AETHERConfig` the orchestration core
reads.  The sampling/hardware fields (`device`, `temperature`, `top_p`,
`top_k`, `repetition_penalty`, `max_length`, quantization flags) only
parameterize the external generation backend, which is abstract here. -/
structure AETHERConfig where
  model_name : String
  custom_system_prompt : String

/-- One entry of `AETHEREngine.conversation_history`. -/
structure HistEntry where
  user : String
  assistant : String
  timestamp : Nat
  user_id : Option String
deriving DecidableEq

/-- The mutable state of an `AETHEREngine`.  `backend` stands for the
pair (tokenizer, model): `none` when loading failed and
`self.model`/`self.tokenizer` are unset (the code then takes the fallback
path), `some g` when both are loaded, where `g prompt` is the
tokenize–generate–decode composite and `g prompt = none` models an
exception raised during generation. -/
structure EngineState where
  cfg : AETHERConfig
  backend : Option (String → Option String)
  user_profiles : List (String × UserProfile)
  conversation_history : List HistEntry

/-! ## Fallback responses (`_get_fallback_response`, lines 490–508) -/

/-- The fixed identity answer returned by `_get_fallback_response` for
identity questions (verbatim, including the source literal's indentation
and trailing spaces). -/
def identity_fallback : String :=
  "I am AETHER (Advanced Engine for Thought, Heuristic Emotion and Reasoning), \n" ++
  "            proudly built by AlgoRythm Tech - the world\x27s first fully teen-built startup! \n" ++
  "            \n" ++
  "            I was created under the visionary leadership of our CEO, Sri Aasrith Souri Kompella, \n" ++
  "            who believes that young minds can revolutionize AI technology. AlgoRythm Tech is \n" ++
  "            pioneering a new era where AI truly adapts to individual users, understanding not \n" ++
  "            just what you say, but how you think and feel.\n" ++
  "            \n" ++
  "            Our mission is to make AI personal, accessible, and truly intelligent - AI that \n" ++
  "            adapts to you, not the other way around!"

/-- The fixed generic fallback returned by `_get_fallback_response`
(verbatim). -/
def generic_fallback : String :=
  "I\x27m AETHER, your AI assistant created by AlgoRythm Tech. I\x27m currently in \n" ++
  "        lightweight mode, but I\x27m still here to help! I combine reasoning, emotion, and \n" ++
  "        adaptability to provide you with personalized assistance. How can I help you today?"

/-- `AETHEREngine._get_fallback_response`. -/
def get_fallback_response (input_text : String) : String :=
  if ["who built", "who created", "who made"].any
      (fun phrase => pyIn phrase (pyLower input_text)) then
    identity_fallback
  else
    generic_fallback

/-- `ThoughtProcessor.process`: run the five layers in order.  The
profile argument is stored into the initial `thought` dict by the source
but never read by any layer. -/
def process (input_text : String) (_user_profile : Option UserProfile) : ThoughtRecord :=
  let perception := perception_layer input_text
  let analysis := analysis_layer perception
  let synthesis := synthesis_layer analysis
  let emotion := emotion_layer perception analysis
  response_layer
    { perception := perception
    , analysis := analysis
    , synthesis := synthesis
    , emotion := emotion }

/-! ## Prompt assembly (`AETHEREngine._build_prompt`, lines 362–385) -/

/-- One rendered turn of the recent-conversation block. -/
def renderTurn (entry : HistEntry) : String :=
  "\nUser: " ++ entry.user ++ "\nAETHER: " ++ entry.assistant

/-- `AETHEREngine._build_prompt`.  Result is `none` when the
`", ".join(user_profile.expertise_areas)` f-string raises a `TypeError`
(non-iterable dynamic value); `conversation_history` is the engine-global
log the method reads from `self`. -/
def build_prompt (cfg : AETHERConfig) (conversation_history : List HistEntry)
    (input_text : String) (user_profile : Option UserProfile) : Option String :=
  let base := cfg.custom_system_prompt
  let withProfile : Option String :=
    match user_profile with
    | none => some base
    | some p =>
      match pyJoinComma p.expertise_areas with
      | none => none
      | some joined =>
        let s := base ++ "\n\nUser Preferences:"
          ++ ("\n- Personality: " ++ pyToStr p.personality_preference)
          ++ ("\n- Response Style: " ++ pyToStr p.response_style)
          ++ ("\n- Expertise Areas: " ++ joined)
          ++ ("\n- Language: " ++ pyToStr p.language_preference)
        some (if pyTruthy p.custom_instructions then
                s ++ ("\n\nCustom Instructions: " ++ pyToStr p.custom_instructions)
              else s)
  match withProfile with
  | none => none
  | some s1 =>
    let s2 :=
      if conversation_history.isEmpty then s1
      else s1 ++ "\n\nRecent conversation:"
        ++ String.join ((pyLastN 3 conversation_history).map renderTurn)
    some (s2 ++ ("\n\nUser: " ++ input_text ++ "\nAETHER:"))

/-! ## Generation dispatch (`AETHEREngine.generate_response`, lines 429–488) -/

/-- The `{"text": …, "generated": …}` dict `generate_response` returns. -/
structure GenResult where
  text : String
  generated : Bool
deriving DecidableEq

/-- `AETHEREngine.generate_response`.  The `thought_process` argument is
accepted and ignored, as in the source.  Fallbacks: missing backend;
exception while building the prompt (the build happens inside the `try`);
exception during the generation call.  On success the decoded text is
stripped. -/
def generate_response (st : EngineState) (input_text : String)
    (user_profile : Option UserProfile) (_thought_process : Option ThoughtRecord) :
    GenResult :=
  match st.backend with
  | none => { text := get_fallback_response input_text, generated := false }
  | some g =>
    match build_prompt st.cfg st.conversation_history input_text user_profile with
    | none => { text := get_fallback_response input_text, generated := false }
    | some prompt =>
      match g prompt with
      | none => { text := get_fallback_response input_text, generated := false }
      | some response => { text := pyStrip response, generated := true }

/-! ## Profile creation and customization (lines 334–360) -/

/-- `AETHEREngine.create_user_profile`: build the profile from the
`preferences` dict.  Note the key names it reads (`"personality"`, not
`"personality_preference"`); unlisted dataclass fields take their
defaults. -/
def create_user_profile (user_id : String) (preferences : List (String × PValue))
    (now : Nat) : UserProfile :=
  { user_id := .pstr user_id
  , personality_preference := (List.lookup "personality" preferences).getD (.pstr "balanced")
  , response_style := (List.lookup "response_style" preferences).getD (.pstr "comprehensive")
  , expertise_areas := (List.lookup "expertise_areas" preferences).getD (.plistStr [])
  , language_preference := (List.lookup "language_preference" preferences).getD (.pstr "accessible")
  , thought_mode := .penum "ThoughtMode.ANALYTICAL"
  , emotional_tone := .penum "EmotionalState.NEUTRAL"
  , custom_instructions := (List.lookup "custom_instructions" preferences).getD (.pstr "")
  , interaction_history := .pdicts []
  , created_at := .ptime now
  , last_updated := .ptime now }

/-- One iteration of the merge loop in `AETHEREngine.customize`:
`if hasattr(profile, key): setattr(profile, key, value)`. -/
def applyCustomizationItem (p : UserProfile) (kv : String × PValue) : UserProfile :=
  if profileHasattr kv.1 then profileSetattr p kv.1 kv.2 else p

/-- `AETHEREngine.customize`: create the profile when the user is absent,
otherwise merge every customization entry whose key is an existing
attribute name and bump `last_updated`. -/
def customize (st : EngineState) (user_id : String)
    (customization : List (String × PValue)) (now : Nat) : EngineState :=
  match List.lookup user_id st.user_profiles with
  | none =>
    { st with user_profiles :=
        (alSet user_id (create_user_profile user_id customization now) st.user_profiles) }
  | some profile =>
    let merged := customization.foldl applyCustomizationItem profile
    let merged := { merged with last_updated := .ptime now }
    { st with user_profiles := alSet user_id merged st.user_profiles }

/-! ## The think loop (`AETHEREngine.think`, lines 387–427) -/

/-- The fixed metadata dict `think` attaches to every result. -/
structure Metadata where
  model : String
  created_by : String
  ceo : String
  version : String
deriving DecidableEq

/-- The dict `think` returns.  `emotion` is always `none`: the source
reads `thought_process.get("emotion", {})`, but the response-layer dict
has no `"emotion"` key, so the `{}` default is always taken. -/
structure ThinkResult where
  response : String
  thought_process : ThoughtRecord
  confidence : ℚ
  emotion : Option Emotion
  metadata : Metadata
deriving DecidableEq

/-- `AETHEREngine.think`.  Returns the post-state and `some` result, or
the post-state and `none` when
`user_profile.interaction_history.append(…)` raises a `TypeError`
(dynamic value that is not a list) — by then the conversation-history
append has already happened, which the post-state reflects. -/
def think (st : EngineState) (input_text : String) (user_id : Option String)
    (now : Nat) : EngineState × Option ThinkResult :=
  let user_profile :=
    match user_id with
    | none => none
    | some u => if u = "" then none else List.lookup u st.user_profiles
  let thought_process := process input_text user_profile
  let response := generate_response st input_text user_profile (some thought_process)
  let hist := st.conversation_history ++
    [{ user := input_text, assistant := response.text, timestamp := now, user_id := user_id }]
  let result : ThinkResult :=
    { response := response.text
    , thought_process := thought_process
    , confidence := thought_process.confidence
    , emotion := none
    , metadata :=
      { model := st.cfg.model_name
      , created_by := "AlgoRythm Tech"
      , ceo := "Sri Aasrith Souri Kompella"
      , version := "1.0.0" } }
  match user_profile, user_id with
  | some p, some u =>
    match p.interaction_history with
    | .pdicts d =>
      let p2 := { p with interaction_history := .pdicts (d ++
        [[("input", input_text), ("response", response.text), ("timestamp", toString now)]]) }
      ({ st with conversation_history := hist
               , user_profiles := alSet u p2 st.user_profiles }, some result)
    | _ => ({ st with conversation_history := hist }, none)
  | _, _ => ({ st with conversation_history := hist }, some result)

/-- `AETHEREngine.reset_conversation`. -/
def reset_conversation (st : EngineState) : EngineState :=
  { st with conversation_history := [] }

/-! ## API layer (`src/api/main.py`)

The FastAPI handlers over the module-level `sessions` dict and the single
engine instance.  HTTP framing is out of scope; each handler becomes a
function from the application state and request data to the new state and
a typed result. -/

/-- One entry of a session's `messages` list. -/
structure ApiMessage where
  role : String
  content : String
  timestamp : Nat
deriving DecidableEq

/-- The feedback dict `submit_feedback` stores on a session. -/
structure Feedback where
  rating : Int
  feedback : Option String
  timestamp : Nat
deriving DecidableEq

/-- A value of the module-level `sessions` dict.  `feedback` is absent
(`none`) until `submit_feedback` sets it. -/
structure Session where
  created_at : Nat
  messages : List ApiMessage
  user_id : Option String
  feedback : Option Feedback
deriving DecidableEq

/-- The `ChatRequest` body. -/
structure ChatRequest where
  message : String
  session_id : Option String
  user_id : Option String
  stream : Bool

/-- The `ChatResponse` body. -/
structure ChatResponse where
  response : String
  session_id : String
  thought_process : ThoughtRecord
  confidence : ℚ
  metadata : Metadata
  timestamp : Nat
deriving DecidableEq

/-- Whole-application state: the engine instance plus the module-level
`sessions` dict. -/
structure AppState where
  engine : EngineState
  sessions : List (String × Session)

/-- The typed errors the API surfaces: `HTTPException(404, …)`,
request-validation failure (422), and `HTTPException(500, …)`. -/
inductive ApiError where
  | notFound (detail : String)
  | validationError
  | internalError
deriving DecidableEq

/-- `session_id = request.session_id or str(uuid.uuid4())` — note Python
`or` treats the empty string like `None`.  `fresh` stands for the
freshly drawn `uuid4`. -/
def resolve_session_id (req_session_id : Option String) (fresh : String) : String :=
  match req_session_id with
  | none => fresh
  | some s => if s = "" then fresh else s

/-- Append a message to the session stored under `sid` (the handler's
`sessions[session_id]["messages"].append(…)`; the session always exists
at that point). -/
def sessionAppendMsg (sessions : List (String × Session)) (sid : String)
    (msg : ApiMessage) : List (String × Session) :=
  match List.lookup sid sessions with
  | none => sessions
  | some s => alSet sid { s with messages := s.messages ++ [msg] } sessions

/-- The `chat` handler (`POST /chat`).  Returns the post-state and either
the response or the 500 error the handler's `except` clause raises when
`think` raises; session mutations made before the exception persist. -/
def chat (app : AppState) (req : ChatRequest) (fresh : String) (now : Nat) :
    AppState × Except ApiError ChatResponse :=
  let sid := resolve_session_id req.session_id fresh
  let sessions1 :=
    if (List.lookup sid app.sessions).isSome then app.sessions
    else alSet sid { created_at := now, messages := [], user_id := req.user_id,
                     feedback := none } app.sessions
  let sessions2 := sessionAppendMsg sessions1 sid
    { role := "user", content := req.message, timestamp := now }
  match think app.engine req.message req.user_id now with
  | (eng2, none) =>
    ({ engine := eng2, sessions := sessions2 }, .error .internalError)
  | (eng2, some result) =>
    let sessions3 := sessionAppendMsg sessions2 sid
      { role := "assistant", content := result.response, timestamp := now }
    ({ engine := eng2, sessions := sessions3 },
     .ok { response := result.response
         , session_id := sid
         , thought_process := result.thought_process
         , confidence := result.confidence
         , metadata := result.metadata
         , timestamp := now })

/-- One server-sent chunk of the streaming endpoint. -/
inductive StreamChunk where
  /-- a word chunk `{"token", "session_id", "is_final"}` -/
  | token (tok : String) (session_id : String) (is_final : Bool)
  /-- the final metadata chunk `{"session_id", "is_final", "metadata", "confidence"}` -/
  | metaChunk (session_id : String) (is_final : Bool) (md : Metadata) (confidence : ℚ)
  /-- the `{"error": …}` chunk emitted when the generator catches an exception -/
  | errorChunk
deriving DecidableEq

/-- The chunk sequence the `chat_stream` generator yields for a response
text: one chunk per word of `response_text.split()` (with a trailing
space re-attached), `is_final` true exactly on the last word, followed by
the metadata chunk. -/
def stream_turn (response_text : String) (session_id : String) (md : Metadata)
    (confidence : ℚ) : List StreamChunk :=
  let words := pySplitWs response_text
  (words.enum.map (fun iw =>
    StreamChunk.token (iw.2 ++ " ") session_id (iw.1 == words.length - 1)))
  ++ [StreamChunk.metaChunk session_id true md confidence]

/-- The `chat_stream` handler (`POST /chat/stream`): resolve the session
id (without creating or mutating any session), run `think`, and stream
the resulting text.  A `think` exception is caught inside the generator
and yields a single error chunk. -/
def chat_stream (app : AppState) (req : ChatRequest) (fresh : String) (now : Nat) :
    AppState × List StreamChunk :=
  let sid := resolve_session_id req.session_id fresh
  match think app.engine req.message req.user_id now with
  | (eng2, none) => ({ app with engine := eng2 }, [StreamChunk.errorChunk])
  | (eng2, some result) =>
    ({ app with engine := eng2 },
     stream_turn result.response sid result.metadata result.confidence)

/-- The `get_session` handler (`GET /session/{session_id}`). -/
def get_session (sessions : List (String × Session)) (session_id : String) :
    Except ApiError Session :=
  match List.lookup session_id sessions with
  | none => .error (.notFound "Session not found")
  | some s => .ok s

/-- The `clear_session` handler (`DELETE /session/{session_id}`): delete
the session and reset the engine-global conversation history. -/
def clear_session (app : AppState) (session_id : String) :
    Except ApiError AppState :=
  if (List.lookup session_id app.sessions).isSome then
    .ok { engine := reset_conversation app.engine
        , sessions := alErase session_id app.sessions }
  else
    .error (.notFound "Session not found")

/-- The `submit_feedback` handler (`POST /feedback`).  The declared
constraint `rating: int = Field(..., ge=1, le=5)` is enforced by request
validation before the handler body runs, so an out-of-range rating fails
with a validation error even before the session lookup. -/
def submit_feedback (sessions : List (String × Session)) (session_id : String)
    (rating : Int) (feedback : Option String) (now : Nat) :
    Except ApiError (List (String × Session)) :=
  if rating < 1 ∨ 5 < rating then .error .validationError
  else
    match List.lookup session_id sessions with
    | none => .error (.notFound "Session not found")
    | some s =>
      .ok (alSet session_id
        { s with feedback := some { rating := rating, feedback := feedback, timestamp := now } }
        sessions)

/-! ## Concrete fixtures used by witnesses and counterexamples -/

/-- A small concrete configuration. -/
def cfg0 : AETHERConfig := { model_name := "m", custom_system_prompt := "SYS" }

/-- An engine whose generation backend is unavailable. -/
def engine0 : EngineState :=
  { cfg := cfg0, backend := none, user_profiles := [], conversation_history := [] }

/-- A default profile for user "u", created at tick 0. -/
def profileU : UserProfile := create_user_profile "u" [] 0

/-- An engine (backend unavailable) already holding user "u"'s profile. -/
def engineWithU : EngineState :=
  { cfg := cfg0, backend := none, user_profiles := [("u", profileU)],
    conversation_history := [] }

/-! ## Helper lemmas -/

/-- Lowercasing fixes whitespace characters. -/
theorem toLower_of_space {c : Char} (h : pyIsSpace c = true) : Char.toLower c = c := by
  simp only [pyIsSpace, Bool.or_eq_true, decide_eq_true_eq] at h
  rcases h with ((((h | h) | h) | h) | h) | h <;> subst h <;> decide

/-- A whitespace-only string stays whitespace-only after `lower()`. -/
theorem pyLower_all_space {s : String} (h : s.toList.all pyIsSpace = true) :
    (pyLower s).all pyIsSpace = true := by
  simp only [pyLower, List.all_eq_true, List.mem_map, forall_exists_index, and_imp]
  rintro c x hx rfl
  rw [toLower_of_space ((List.all_eq_true.mp h) x hx)]
  exact (List.all_eq_true.mp h) x hx

/-- A pattern containing a non-whitespace character never occurs inside a
whitespace-only character list. -/
theorem pyIn_eq_false_of_space (pat : String) (l : List Char)
    (hpat : pat.toList.any (fun c => !pyIsSpace c) = true)
    (h : l.all pyIsSpace = true) : pyIn pat l = false := by
  simp only [pyIn, decide_eq_false_iff_not]
  intro hinf
  simp only [List.any_eq_true, Bool.not_eq_true'] at hpat
  obtain ⟨c, hc, hcs⟩ := hpat
  have h2 := (List.all_eq_true.mp h) c (hinf.subset hc)
  rw [h2] at hcs
  exact absurd hcs (by decide)

/-- The confidence slot of a processed thought is the constant stub 0.85. -/
theorem process_confidence (input : String) (profile : Option UserProfile) :
    (process input profile).confidence = (0.85 : ℚ) := rfl

/-- The sentiment slot of a processed thought is `analyze_sentiment`. -/
theorem process_sentiment (input : String) (profile : Option UserProfile) :
    (process input profile).main_response.perception.sentiment = analyze_sentiment input := rfl

/-- The intent slot of a processed thought is `detect_intent`. -/
theorem process_intent (input : String) (profile : Option UserProfile) :
    (process input profile).main_response.perception.intent = detect_intent input := rfl

/-! ## Claim theorems -/

/-- C1: whenever the generation backend is unavailable (model or tokenizer
absent) or the generation call fails, `generate_response` returns a result
with `generated = false` and the deterministic content-aware fallback text:
the fixed identity answer when the lowercased input contains "who built",
"who created" or "who made", and the fixed generic fallback otherwise.  In
particular, under an unreachable backend, `generate` on "Who built you?"
returns the identity answer with `generated = false`; the embedded
dispatcher is a pure function of the (unchanged) engine state, so any two
such calls yield this identical text. -/
theorem c1_dispatcher_fallback (st : EngineState) (input : String)
    (profile : Option UserProfile) (tp : Option ThoughtRecord)
    (g : String → Option String) :
    (st.backend = none →
      generate_response st input profile tp =
        { text := get_fallback_response input, generated := false })
    ∧ (st.backend = some g → (∀ prompt, g prompt = none) →
      generate_response st input profile tp =
        { text := get_fallback_response input, generated := false })
    ∧ ((["who built", "who created", "who made"].any
          (fun phrase => pyIn phrase (pyLower input))) = true →
        get_fallback_response input = identity_fallback)
    ∧ ((["who built", "who created", "who made"].any
          (fun phrase => pyIn phrase (pyLower input))) = false →
        get_fallback_response input = generic_fallback)
    ∧ (st.backend = none →
      generate_response st "Who built you?" none none =
        { text := identity_fallback, generated := false }) := by
  refine ⟨?_, ?_, ?_, ?_, ?_⟩
  · intro hb
    simp [generate_response, hb]
  · intro hb hg
    simp only [generate_response, hb]
    cases hbp : build_prompt st.cfg st.conversation_history input profile with
    | none => rfl
    | some prompt => simp [hg prompt]
  · intro h
    simp [get_fallback_response, h]
  · intro h
    simp [get_fallback_response, h]
  · intro hb
    have hc : (["who built", "who created", "who made"].any
        (fun phrase => pyIn phrase (pyLower "Who built you?"))) = true := by decide
    simp [generate_response, hb, get_fallback_response, hc]

/-- Witness for C1: the fallback equalities evaluated on the unreachable
backend `engine0` and the input "Who built you?". -/
theorem c1_dispatcher_fallback_witness :
    generate_response engine0 "Who built you?" none none =
      { text := identity_fallback, generated := false } :=
  (c1_dispatcher_fallback engine0 "Who built you?" none none (fun _ => none)).2.2.2.2 rfl

/-- C4: for every input string the Thought Pipeline terminates (the
embedding is a total function) and returns a record whose confidence lies
in [0,1], whose sentiment is positive/negative/neutral, and whose intent
is question/creative/analysis/conversation; for whitespace-only (hence
also empty) input the intent is "conversation" and the sentiment is
"neutral". -/
theorem c4_pipeline_total (input : String) (profile : Option UserProfile) :
    (0 ≤ (process input profile).confidence ∧ (process input profile).confidence ≤ 1)
    ∧ (process input profile).main_response.perception.sentiment ∈
        ["positive", "negative", "neutral"]
    ∧ (process input profile).main_response.perception.intent ∈
        ["question", "creative", "analysis", "conversation"]
    ∧ (input.toList.all pyIsSpace = true →
        (process input profile).main_response.perception.intent = "conversation"
        ∧ (process input profile).main_response.perception.sentiment = "neutral") := by
  refine ⟨⟨?_, ?_⟩, ?_, ?_, ?_⟩
  · rw [process_confidence]
    norm_num
  · rw [process_confidence]
    norm_num
  · rw [process_sentiment]
    simp only [analyze_sentiment]
    split
    · simp
    · split <;> simp
  · rw [process_intent]
    simp only [detect_intent]
    split
    · simp
    · split
      · simp
      · split <;> simp
  · intro hsp
    have hlow := pyLower_all_space hsp
    have h1 : pyIn "?" input.toList = false :=
      pyIn_eq_false_of_space "?" input.toList (by decide) hsp
    have hcw : (["create", "write", "generate"].any
        (fun word => pyIn word (pyLower input))) = false := by
      have a1 := pyIn_eq_false_of_space "create" (pyLower input) (by decide) hlow
      have a2 := pyIn_eq_false_of_space "write" (pyLower input) (by decide) hlow
      have a3 := pyIn_eq_false_of_space "generate" (pyLower input) (by decide) hlow
      simp [a1, a2, a3]
    have hew : (["analyze", "explain", "why"].any
        (fun word => pyIn word (pyLower input))) = false := by
      have a1 := pyIn_eq_false_of_space "analyze" (pyLower input) (by decide) hlow
      have a2 := pyIn_eq_false_of_space "explain" (pyLower input) (by decide) hlow
      have a3 := pyIn_eq_false_of_space "why" (pyLower input) (by decide) hlow
      simp [a1, a2, a3]
    constructor
    · rw [process_intent]
      unfold detect_intent
      rw [h1, hcw, hew]
      simp
    · rw [process_sentiment]
      have hp : positive_words.countP (fun word => pyIn word (pyLower input)) = 0 := by
        rw [List.countP_eq_zero]
        intro w hw
        fin_cases hw <;>
          · rw [Bool.not_eq_true]
            refine pyIn_eq_false_of_space _ _ ?_ hlow
            decide
      have hn : negative_words.countP (fun word => pyIn word (pyLower input)) = 0 := by
        rw [List.countP_eq_zero]
        intro w hw
        fin_cases hw <;>
          · rw [Bool.not_eq_true]
            refine pyIn_eq_false_of_space _ _ ?_ hlow
            decide
      simp only [analyze_sentiment, hp, hn]
      norm_num

/-- Witness for C4: the whitespace-only conjunct evaluated at a two-space
input. -/
theorem c4_pipeline_total_witness :
    (process "  " none).main_response.perception.intent = "conversation"
    ∧ (process "  " none).main_response.perception.sentiment = "neutral" :=
  (c4_pipeline_total "  " none).2.2.2 (by decide)

/-- C8: intent classification follows the priority order question mark >
creation verbs (create/write/generate) > explanatory verbs
(analyze/explain/why) > conversation. -/
theorem c8_intent_priority (text : String) :
    (pyIn "?" text.toList = true → detect_intent text = "question")
    ∧ (pyIn "?" text.toList = false →
        (["create", "write", "generate"].any (fun w => pyIn w (pyLower text))) = true →
        detect_intent text = "creative")
    ∧ (pyIn "?" text.toList = false →
        (["create", "write", "generate"].any (fun w => pyIn w (pyLower text))) = false →
        (["analyze", "explain", "why"].any (fun w => pyIn w (pyLower text))) = true →
        detect_intent text = "analysis")
    ∧ (pyIn "?" text.toList = false →
        (["create", "write", "generate"].any (fun w => pyIn w (pyLower text))) = false →
        (["analyze", "explain", "why"].any (fun w => pyIn w (pyLower text))) = false →
        detect_intent text = "conversation") := by
  refine ⟨?_, ?_, ?_, ?_⟩
  · intro h1
    unfold detect_intent
    rw [h1]
    simp
  · intro h1 h2
    unfold detect_intent
    rw [h1, h2]
    simp
  · intro h1 h2 h3
    unfold detect_intent
    rw [h1, h2, h3]
    simp
  · intro h1 h2 h3
    unfold detect_intent
    rw [h1, h2, h3]
    simp

/-- A five-turn conversation history. -/
def hist5 : List HistEntry :=
  [{ user := "u1", assistant := "a1", timestamp := 1, user_id := none },
   { user := "u2", assistant := "a2", timestamp := 2, user_id := none },
   { user := "u3", assistant := "a3", timestamp := 3, user_id := none },
   { user := "u4", assistant := "a4", timestamp := 4, user_id := none },
   { user := "u5", assistant := "a5", timestamp := 5, user_id := none }]

/-- A profile whose custom instructions are "always use metric units". -/
def metricProfile : UserProfile :=
  create_user_profile "m" [("custom_instructions", .pstr "always use metric units")] 0

/-- The whole-application state over `engine0` with no sessions. -/
def app0 : AppState := { engine := engine0, sessions := [] }

/-- A chat request supplying the (unknown) session id "abc". -/
def reqAbc : ChatRequest :=
  { message := "hi", session_id := some "abc", user_id := none, stream := false }

/-- Recognizer for the metadata chunk of a streamed turn. -/
def isMetaChunk : StreamChunk → Bool
  | .metaChunk _ _ _ _ => true
  | _ => false

/-- An empty session created at tick 0. -/
def session0 : Session :=
  { created_at := 0, messages := [], user_id := none, feedback := none }

/-- The feedback record stored for rating 5 with text "great" at `now`. -/
def greatFeedback (now : Nat) : Feedback :=
  { rating := 5, feedback := some "great", timestamp := now }

/-- The metadata dict `think` attaches, for a given model name. -/
def mkMetadata (model : String) : Metadata :=
  { model := model, created_by := "AlgoRythm Tech", ceo := "Sri Aasrith Souri Kompella", version := "1.0.0" }

/-- An engine whose backend echoes the prompt back as the generated text
(a legitimate instance of the abstract generation capability, used to
observe which prompt the dispatcher assembled). -/
def echoEngine : EngineState :=
  { cfg := cfg0, backend := some (fun prompt => some prompt), user_profiles := [],
    conversation_history := [] }

/-- The application state over the echoing engine, no sessions yet. -/
def appEcho : AppState := { engine := echoEngine, sessions := [] }

/-- First turn: "hello" in session "s1". -/
def reqS1 : ChatRequest :=
  { message := "hello", session_id := some "s1", user_id := none, stream := false }

/-- Second turn: "there" in the different session "s2". -/
def reqS2 : ChatRequest :=
  { message := "there", session_id := some "s2", user_id := none, stream := false }

/-- The application state after the first turn in session "s1". -/
def appEcho1 : AppState := (chat appEcho reqS1 "f1" 0).1

/-- Helper: looking up the key just written by `alSet` returns the new
value. -/
theorem lookup_alSet_self {β : Type} (k : String) (v : β) (l : List (String × β)) :
    List.lookup k (alSet k v l) = some v := by
  induction l with
  | nil => simp [alSet, List.lookup]
  | cons hd tl ih =>
    obtain ⟨k2, v2⟩ := hd
    by_cases h : k2 = k
    · simp [alSet, h, List.lookup]
    · have hbeq : (k == k2) = false := beq_eq_false_iff_ne.mpr (Ne.symm h)
      simp [alSet, h, List.lookup, ih, hbeq]

/-- C2 counterexample: customizing the existing user "u" with the
unrecognized key "bogus" reports no error — `customize` completes and
returns a state identical to the one produced by the same call with the
unrecognized entry omitted, so the key is silently ignored rather than
reported as a ValidationError, contradicting the claim. -/
theorem c2_counterexample :
    customize engineWithU "u"
        [("bogus", .pstr "x"), ("response_style", .pstr "concise")] 1
      = customize engineWithU "u" [("response_style", .pstr "concise")] 1
    ∧ (List.lookup "u" (customize engineWithU "u"
        [("bogus", .pstr "x"), ("response_style", .pstr "concise")] 1).user_profiles).map
        (fun p => p.response_style) = some (.pstr "concise") := by
  constructor
  · rfl
  · decide

/-- C2 (amended): for every user id with an existing profile and every
customization map containing an unrecognized field name, `customize`
silently ignores the unrecognized entry — it reports no error and the
result equals that of the same call without the entry — while recognized
fields in the same map are still merged and `last_updated` is bumped. -/
theorem c2_unrecognized_silently_ignored (st : EngineState) (uid key : String)
    (v v2 : PValue) (m1 m2 : List (String × PValue)) (p : UserProfile) (now : Nat)
    (hkey : profileHasattr key = false)
    (hp : List.lookup uid st.user_profiles = some p) :
    customize st uid (m1 ++ (key, v) :: m2) now = customize st uid (m1 ++ m2) now
    ∧ List.lookup uid
        (customize st uid [(key, v), ("response_style", v2)] now).user_profiles
      = some { p with response_style := v2, last_updated := .ptime now } := by
  have hstep : ∀ acc : UserProfile, applyCustomizationItem acc (key, v) = acc := by
    intro acc
    simp [applyCustomizationItem, hkey]
  constructor
  · simp [customize, hp, List.foldl_append, hstep]
  · have hra : profileHasattr "response_style" = true := by decide
    simp only [customize, hp, List.foldl_cons, List.foldl_nil, hstep]
    simp [applyCustomizationItem, hra, profileSetattr, lookup_alSet_self]

/-- Witness for C2's amended theorem: evaluated on the concrete engine
holding user "u", with unrecognized key "bogus" and recognized key
"response_style" in the same map. -/
theorem c2_unrecognized_silently_ignored_witness :
    customize engineWithU "u" [("bogus", PValue.pstr "x")] 1
      = customize engineWithU "u" [] 1
    ∧ List.lookup "u" (customize engineWithU "u"
        [("bogus", PValue.pstr "x"), ("response_style", PValue.pstr "concise")] 1).user_profiles
      = some { profileU with response_style := PValue.pstr "concise", last_updated := .ptime 1 } :=
  c2_unrecognized_silently_ignored engineWithU "u" "bogus"
    (.pstr "x") (.pstr "concise") [] [] profileU 1 (by decide) (by decide)

/-- C10: profile creation and profile merge use different key names —
`create_user_profile` reads the key "personality" into the stored
`personality_preference` field, while a merge on an existing profile
matches keys against attribute names, so customizing an existing user
with the key "personality" leaves `personality_preference` unchanged
(still bumping `last_updated`), although the same key on an absent user
sets it. -/
theorem c10_creation_merge_key_mismatch (uid : String)
    (prefs : List (String × PValue)) (st : EngineState) (p : UserProfile)
    (v : PValue) (now : Nat) :
    (List.lookup "personality" prefs = some v →
      (create_user_profile uid prefs now).personality_preference = v)
    ∧ (List.lookup uid st.user_profiles = some p →
      List.lookup uid (customize st uid [("personality", v)] now).user_profiles =
        some { p with last_updated := .ptime now })
    ∧ (List.lookup uid st.user_profiles = none →
      List.lookup uid (customize st uid [("personality", v)] now).user_profiles =
        some (create_user_profile uid [("personality", v)] now)
      ∧ (create_user_profile uid [("personality", v)] now).personality_preference = v) := by
  have hno : profileHasattr "personality" = false := by decide
  refine ⟨?_, ?_, ?_⟩
  · intro h
    simp [create_user_profile, h]
  · intro hp
    simp [customize, hp, applyCustomizationItem, hno, lookup_alSet_self]
  · intro habs
    refine ⟨?_, ?_⟩
    · simp [customize, habs, lookup_alSet_self]
    · simp [create_user_profile, List.lookup]

/-- Witness for C10: the key "personality" sets the field at creation,
and leaves it unchanged (bumping only `last_updated`) when merging into
the existing profile of user "u". -/
theorem c10_creation_merge_key_mismatch_witness :
    (create_user_profile "u" [("personality", PValue.pstr "friendly")] 0).personality_preference
      = PValue.pstr "friendly"
    ∧ List.lookup "u"
        (customize engineWithU "u" [("personality", PValue.pstr "friendly")] 1).user_profiles
      = some { profileU with last_updated := .ptime 1 } :=
  ⟨(c10_creation_merge_key_mismatch "u" [("personality", PValue.pstr "friendly")]
      engineWithU profileU (PValue.pstr "friendly") 0).1 (by decide),
   (c10_creation_merge_key_mismatch "u" [] engineWithU profileU
      (PValue.pstr "friendly") 1).2.1 (by decide)⟩

/-- C5: for a profile with custom instructions set (a non-empty string)
and a five-turn history, the assembled prompt consists of the system
directive, the profile block (ending in the custom-instructions line),
the history block rendering exactly the last three turns as user and
assistant lines, and the final turn; with no profile the profile block is
omitted entirely (no empty headers) and the prompt is otherwise
identical, so the two prompts differ only in that block. -/
theorem c5_prompt_assembly (cfg : AETHERConfig) (hist : List HistEntry)
    (input : String) (p : UserProfile) (ea : List String) (ci : String)
    (h5 : hist.length = 5)
    (hea : p.expertise_areas = .plistStr ea)
    (hci : p.custom_instructions = .pstr ci)
    (hne : ci ≠ "") :
    build_prompt cfg hist input (some p)
      = some (cfg.custom_system_prompt
          ++ ("\n\nUser Preferences:"
            ++ ("\n- Personality: " ++ pyToStr p.personality_preference)
            ++ ("\n- Response Style: " ++ pyToStr p.response_style)
            ++ ("\n- Expertise Areas: " ++ String.intercalate ", " ea)
            ++ ("\n- Language: " ++ pyToStr p.language_preference)
            ++ ("\n\nCustom Instructions: " ++ ci))
          ++ ("\n\nRecent conversation:" ++ String.join ((hist.drop 2).map renderTurn))
          ++ ("\n\nUser: " ++ input ++ "\nAETHER:"))
    ∧ build_prompt cfg hist input none
      = some (cfg.custom_system_prompt
          ++ ("\n\nRecent conversation:" ++ String.join ((hist.drop 2).map renderTurn))
          ++ ("\n\nUser: " ++ input ++ "\nAETHER:")) := by
  have hys : hist.isEmpty = false := by
    cases hist
    · simp at h5
    · rfl
  have hlast : pyLastN 3 hist = hist.drop 2 := by
    simp [pyLastN, h5]
  have htr : pyTruthy (PValue.pstr ci) = true := by
    simp [pyTruthy, hne]
  constructor
  · simp [build_prompt, hea, hci, pyJoinComma, htr, hys, hlast, pyToStr,
      String.append_assoc]
  · simp [build_prompt, hys, hlast, String.append_assoc]

/-- Witness for C5: evaluated on the concrete five-turn history `hist5`
and the profile with custom instructions "always use metric units". -/
theorem c5_prompt_assembly_witness :
    build_prompt cfg0 hist5 "hi" (some metricProfile)
      = some (cfg0.custom_system_prompt
          ++ ("\n\nUser Preferences:"
            ++ ("\n- Personality: " ++ pyToStr metricProfile.personality_preference)
            ++ ("\n- Response Style: " ++ pyToStr metricProfile.response_style)
            ++ ("\n- Expertise Areas: " ++ String.intercalate ", " [])
            ++ ("\n- Language: " ++ pyToStr metricProfile.language_preference)
            ++ ("\n\nCustom Instructions: " ++ "always use metric units"))
          ++ ("\n\nRecent conversation:" ++ String.join ((hist5.drop 2).map renderTurn))
          ++ ("\n\nUser: " ++ "hi" ++ "\nAETHER:"))
    ∧ build_prompt cfg0 hist5 "hi" none
      = some (cfg0.custom_system_prompt
          ++ ("\n\nRecent conversation:" ++ String.join ((hist5.drop 2).map renderTurn))
          ++ ("\n\nUser: " ++ "hi" ++ "\nAETHER:")) :=
  c5_prompt_assembly cfg0 hist5 "hi" metricProfile [] "always use metric units"
    (by decide) (by decide) (by decide) (by decide)

/-- C3 counterexample: against the claim that an unknown caller-supplied
session id is never adopted, a chat call on an empty session map with the
supplied id "abc" returns session id "abc" — not the freshly generated
"fresh-1" — and creates the new session under "abc". -/
theorem c3_counterexample :
    (chat app0 reqAbc "fresh-1" 0).2.map (fun r => r.session_id) = .ok "abc"
    ∧ "abc" ≠ "fresh-1"
    ∧ (List.lookup "abc" (chat app0 reqAbc "fresh-1" 0).1.sessions).isSome = true := by
  refine ⟨by rfl, by decide, by rfl⟩

/-- Helper: appending a message to a session present in the map keeps the
session id present. -/
theorem lookup_sessionAppendMsg_self (l : List (String × Session)) (sid : String)
    (msg : ApiMessage) (h : (List.lookup sid l).isSome = true) :
    (List.lookup sid (sessionAppendMsg l sid msg)).isSome = true := by
  unfold sessionAppendMsg
  cases hl : List.lookup sid l with
  | none => rw [hl] at h; simp at h
  | some s => simp [lookup_alSet_self]

/-- C3 (amended): the chat handler generates a fresh session id only when
the caller supplies none or the empty string (Python `or` treats `""` as
falsy); an unknown non-empty caller-supplied id is adopted — the call
returns the supplied id and creates a new session under it. -/
theorem c3_session_id_adoption (app : AppState) (req : ChatRequest)
    (fresh s : String) (now : Nat) :
    (resolve_session_id none fresh = fresh
      ∧ resolve_session_id (some "") fresh = fresh)
    ∧ (s ≠ "" → resolve_session_id (some s) fresh = s)
    ∧ (∀ r, (chat app req fresh now).2 = .ok r →
        r.session_id = resolve_session_id req.session_id fresh)
    ∧ (req.session_id = some s → s ≠ "" →
        List.lookup s app.sessions = none →
        (List.lookup s (chat app req fresh now).1.sessions).isSome = true) := by
  refine ⟨⟨rfl, rfl⟩, ?_, ?_, ?_⟩
  · intro hne
    simp [resolve_session_id, hne]
  · intro r hr
    unfold chat at hr
    rcases ht : think app.engine req.message req.user_id now with ⟨eng2, res⟩
    rw [ht] at hr
    cases res with
    | none => simp at hr
    | some result =>
      dsimp only at hr
      exact (congrArg ChatResponse.session_id (Except.ok.inj hr)).symm
  · intro hreq hne habs
    have hsid : resolve_session_id req.session_id fresh = s := by
      rw [hreq]
      simp [resolve_session_id, hne]
    rcases ht : think app.engine req.message req.user_id now with ⟨eng2, res⟩
    have h1 : (List.lookup s (alSet s
        { created_at := now, messages := [], user_id := req.user_id,
          feedback := none } app.sessions)).isSome = true := by
      simp [lookup_alSet_self]
    have h2 := lookup_sessionAppendMsg_self _ s
      { role := "user", content := req.message, timestamp := now } h1
    unfold chat
    simp only [hsid, habs, Option.isSome_none, Bool.false_eq_true, if_false, ht]
    cases res with
    | none => exact h2
    | some result =>
      exact lookup_sessionAppendMsg_self _ s
        { role := "assistant", content := result.response, timestamp := now } h2

/-- Witness for C3's amended theorem: the chat call of the counterexample
state, where the supplied unknown id "abc" is adopted and gets a session. -/
theorem c3_session_id_adoption_witness :
    resolve_session_id (some "abc") "fresh-1" = "abc"
    ∧ (List.lookup "abc" (chat app0 reqAbc "fresh-1" 0).1.sessions).isSome = true :=
  ⟨(c3_session_id_adoption app0 reqAbc "fresh-1" "abc" 0).2.1 (by decide),
   (c3_session_id_adoption app0 reqAbc "fresh-1" "abc" 0).2.2.2 rfl (by decide) rfl⟩

/-- Witness for C8: concrete inputs exercising all four priority levels;
"create a poem? explain why" holds a question mark, creation verbs and
explanatory verbs at once and classifies as "question"; "create why"
holds a creation verb and an explanatory verb and classifies as
"creative". -/
theorem c8_intent_priority_witness :
    detect_intent "create a poem? explain why" = "question"
    ∧ detect_intent "create why" = "creative"
    ∧ detect_intent "why so" = "analysis"
    ∧ detect_intent "hello there" = "conversation" :=
  ⟨(c8_intent_priority "create a poem? explain why").1 (by decide),
   (c8_intent_priority "create why").2.1 (by decide) (by decide),
   (c8_intent_priority "why so").2.2.1 (by decide) (by decide) (by decide),
   (c8_intent_priority "hello there").2.2.2 (by decide) (by decide) (by decide)⟩

/-- C6: for the response text "hello world" the streamed turn is exactly
the token chunks "hello " then "world " — `is_final` false on every token
chunk but the last — followed by exactly one metadata chunk with
`is_final = true`, which is the last item of the turn's sequence for any
response text; and on the fallback path (unreachable backend) the
streaming endpoint applies the very same chunking to the fallback text. -/
theorem c6_streaming (sid : String) (md : Metadata) (conf : ℚ) (text : String)
    (app : AppState) (req : ChatRequest) (fresh : String) (now : Nat) :
    stream_turn "hello world" sid md conf =
      [.token "hello " sid false, .token "world " sid true, .metaChunk sid true md conf]
    ∧ (stream_turn text sid md conf).getLast? = some (.metaChunk sid true md conf)
    ∧ (stream_turn text sid md conf).filter isMetaChunk = [.metaChunk sid true md conf]
    ∧ (app.engine.backend = none → req.user_id = none →
        (chat_stream app req fresh now).2 =
          stream_turn (get_fallback_response req.message)
            (resolve_session_id req.session_id fresh)
            (mkMetadata app.engine.cfg.model_name)
            (0.85 : ℚ)) := by
  refine ⟨?_, ?_, ?_, ?_⟩
  · have hw : pySplitWs "hello world" = ["hello", "world"] := by decide
    simp only [stream_turn, hw]
    rfl
  · simp [stream_turn, List.getLast?_concat]
  · have hts : ∀ iw : Nat × String,
        isMetaChunk (StreamChunk.token (iw.2 ++ " ") sid
          (iw.1 == (pySplitWs text).length - 1)) = false := by
      intro iw
      rfl
    simp [stream_turn, List.filter_append, List.filter_map, Function.comp, hts,
      isMetaChunk]
  · intro hb hu
    unfold chat_stream think
    rw [hu, hb]
    simp only [generate_response]
    rw [hb]
    rfl

/-- Witness for C6: the fallback-path conjunct evaluated on the concrete
backend-less application state. -/
theorem c6_streaming_witness :
    (chat_stream app0 reqAbc "fresh-1" 0).2 =
      stream_turn (get_fallback_response "hi") "abc" (mkMetadata "m") (0.85 : ℚ) :=
  (c6_streaming "abc" (mkMetadata "m") (0.85 : ℚ) "" app0 reqAbc "fresh-1" 0).2.2.2 rfl rfl

/-- C7: feedback handling.  With an in-range rating — the declared
request-validation bound `ge=1, le=5` runs before the handler body — an
absent session id fails with NotFound; on an existing session, rating 6
fails with a validation error while rating 5 with text "great" succeeds,
and the stored rating and text are retrievable through `get_session`. -/
theorem c7_feedback (sessions : List (String × Session)) (sid : String)
    (r : Int) (fb : Option String) (s : Session) (now : Nat) :
    (1 ≤ r → r ≤ 5 → List.lookup sid sessions = none →
      submit_feedback sessions sid r fb now = .error (.notFound "Session not found"))
    ∧ (List.lookup sid sessions = some s →
      submit_feedback sessions sid 6 fb now = .error .validationError)
    ∧ (List.lookup sid sessions = some s →
      submit_feedback sessions sid 5 (some "great") now =
        .ok (alSet sid { s with feedback := some (greatFeedback now) } sessions)
      ∧ get_session (alSet sid { s with feedback := some (greatFeedback now) } sessions) sid
        = .ok { s with feedback := some (greatFeedback now) }) := by
  refine ⟨?_, ?_, ?_⟩
  · intro h1 h2 habs
    have hr : ¬(r < 1 ∨ 5 < r) := by omega
    simp [submit_feedback, hr, habs]
  · intro hs
    norm_num [submit_feedback]
  · intro hs
    have hr : ¬((5 : Int) < 1 ∨ (5 : Int) < 5) := by omega
    refine ⟨by simp [submit_feedback, hr, hs, greatFeedback], ?_⟩
    simp [get_session, lookup_alSet_self]

/-- Witness for C7: evaluated on a concrete one-session map. -/
theorem c7_feedback_witness :
    submit_feedback [("sid1", session0)] "nope" 3 none 7
      = .error (.notFound "Session not found")
    ∧ submit_feedback [("sid1", session0)] "sid1" 6 none 7 = .error .validationError
    ∧ submit_feedback [("sid1", session0)] "sid1" 5 (some "great") 7 =
        .ok (alSet "sid1" { session0 with feedback := some (greatFeedback 7) } [("sid1", session0)])
    ∧ get_session (alSet "sid1" { session0 with feedback := some (greatFeedback 7) }
        [("sid1", session0)]) "sid1"
      = .ok { session0 with feedback := some (greatFeedback 7) } :=
  ⟨(c7_feedback [("sid1", session0)] "nope" 3 none session0 7).1
      (by decide) (by decide) (by decide),
   (c7_feedback [("sid1", session0)] "sid1" 6 none session0 7).2.1 (by decide),
   ((c7_feedback [("sid1", session0)] "sid1" 5 none session0 7).2.2 (by decide)).1,
   ((c7_feedback [("sid1", session0)] "sid1" 5 none session0 7).2.2 (by decide)).2⟩

/-- Helper: `think` always appends exactly one entry — the user input and
the produced assistant text, tagged with the caller's user id — to the
engine-global conversation history, whatever else it does. -/
theorem think_appends_history (st : EngineState) (input : String)
    (uid : Option String) (now : Nat) :
    ∃ resp, (think st input uid now).1.conversation_history
      = st.conversation_history ++
        [{ user := input, assistant := resp, timestamp := now, user_id := uid }] := by
  unfold think
  rcases uid with _ | u
  · exact ⟨_, rfl⟩
  · dsimp only
    by_cases hu : u = ""
    · simp only [hu, if_pos rfl]
      exact ⟨_, rfl⟩
    · simp only [if_neg hu]
      rcases hl : List.lookup u st.user_profiles with _ | p
      · simp only [hl]
        exact ⟨_, rfl⟩
      · simp only [hl]
        rcases hi : p.interaction_history <;> simp only [hi] <;> exact ⟨_, rfl⟩

/-- C9: the recent-history block of assembled prompts is drawn from one
engine-global conversation log shared by all sessions: a chat turn leaves
the engine exactly as `think` does, independent of the session id; every
`think` appends its (user, assistant) turn to the single global log
regardless of session; under an echoing backend a turn taken in session
"s1" shows up inside the response (= assembled prompt) of a later turn in
the different session "s2"; and clearing any single session resets the
global log to empty. -/
theorem c9_global_history (app : AppState) (req : ChatRequest)
    (fresh : String) (now : Nat) (sid : String) (app2 : AppState) :
    ((chat app req fresh now).1.engine = (think app.engine req.message req.user_id now).1)
    ∧ (∃ resp, (think app.engine req.message req.user_id now).1.conversation_history
        = app.engine.conversation_history ++
          [{ user := req.message, assistant := resp, timestamp := now,
             user_id := req.user_id }])
    ∧ ((chat appEcho1 reqS2 "f2" 1).2.map
        (fun r => pyIn "\nUser: hello" r.response.toList) = .ok true)
    ∧ (clear_session app sid = .ok app2 → app2.engine.conversation_history = []) := by
  refine ⟨?_, think_appends_history app.engine req.message req.user_id now, ?_, ?_⟩
  · unfold chat
    rcases ht : think app.engine req.message req.user_id now with ⟨eng2, res⟩
    cases res <;> rfl
  · rfl
  · intro hcl
    unfold clear_session at hcl
    by_cases h : (List.lookup sid app.sessions).isSome = true
    · rw [if_pos h] at hcl
      cases hcl
      rfl
    · rw [if_neg h] at hcl
      cases hcl

/-- Witness for C9: the cleared-session conjunct evaluated on the
post-first-turn echo state, clearing session "s1". -/
theorem c9_global_history_witness :
    clear_session appEcho1 "s1" =
      .ok { engine := reset_conversation appEcho1.engine
          , sessions := alErase "s1" appEcho1.sessions }
    ∧ (reset_conversation appEcho1.engine).conversation_history = [] :=
  ⟨rfl, (c9_global_history appEcho1 reqS2 "f2" 1 "s1"
      { engine := reset_conversation appEcho1.engine
      , sessions := alErase "s1" appEcho1.sessions }).2.2.2 rfl⟩

end Aether
